import Mathlib

/-!
Shallow embedding of the snow-docs CLI core (src/snow_docs/app.py): the
pagination and selection state machine of the `search` command, the prompt
interpreter `_parse_prompt`, the extraction and filter stage of `search`,
and the interaction loop driving them. Machine strings are Lean `String`;
Python ints are `Int`; the fallible pieces return `Option` or `Except`.
-/

namespace SnowDocs

/-- ASCII case folding of one character, as Python str.lower acts on the
ASCII range (the only range the keywords and digits of the program use). -/
def pyLowerChar (c : Char) : Char :=
  if 65 ≤ c.toNat ∧ c.toNat ≤ 90 then Char.ofNat (c.toNat + 32) else c

/-- Lower-casing of a whole string, modelling the Python `.lower()` call
performed by `_parse_prompt` on the raw input line. -/
def pyLower (s : String) : String := ⟨s.data.map pyLowerChar⟩

/-- Digit accumulation for the tail of a Python integer literal: a single
underscore may stand between two digits, as accepted by Python int(). -/
def pyDigitsCore : Nat → List Char → Option Nat
  | acc, [] => some acc
  | _acc, '_' :: [] => none
  | acc, '_' :: c :: cs =>
    if c.isDigit then pyDigitsCore (acc * 10 + (c.toNat - 48)) cs else none
  | acc, c :: cs =>
    if c.isDigit then pyDigitsCore (acc * 10 + (c.toNat - 48)) cs else none

/-- A nonempty digit run (first character a digit, then digits with single
interior underscores), as Python int() accepts after the optional sign. -/
def pyDigits : List Char → Option Nat
  | [] => none
  | c :: cs => if c.isDigit then pyDigitsCore (c.toNat - 48) cs else none

/-- The ASCII whitespace characters Python str.strip removes around an
integer literal. -/
def isPySpace (c : Char) : Bool :=
  c = ' ' || c = '\t' || c = '\n' || c = '\r' || c = '\x0b' || c = '\x0c'

/-- Surrounding-whitespace stripping, as Python int() applies to its
argument before parsing. -/
def pyStrip (cs : List Char) : List Char :=
  ((cs.dropWhile isPySpace).reverse.dropWhile isPySpace).reverse

/-- Python int(str) on ASCII input: strip surrounding whitespace, optional
sign, then a digit run; None models the ValueError raised on any other
shape. This is the `int(prompt)` call of `_parse_prompt`. -/
def pyInt (s : String) : Option Int :=
  match pyStrip s.data with
  | '+' :: cs => (pyDigits cs).map (fun n => (n : Int))
  | '-' :: cs => (pyDigits cs).map (fun n => -(n : Int))
  | cs => (pyDigits cs).map (fun n => (n : Int))

/-- LinkType of app.py: the display category of one search result. -/
inductive LinkType where
  | doc
  | knowledge_base
deriving DecidableEq, Repr

/-- The .value string of each LinkType member, as in app.py. -/
def LinkType.value : LinkType → String
  | .doc => "Documentation"
  | .knowledge_base => "Knowledge Base"

/-- The Python .name identifier of each LinkType member. -/
def LinkType.pyName : LinkType → String
  | .doc => "doc"
  | .knowledge_base => "knowledge_base"

/-- LinkTypeOptions of app.py: the filter option choice of the search
command. -/
inductive LinkTypeOptions where
  | doc
  | knowledge_base
  | both
deriving DecidableEq, Repr

/-- The Python .name identifier of each LinkTypeOptions member; the code
compares these names against LinkType names in the filter check. -/
def LinkTypeOptions.pyName : LinkTypeOptions → String
  | .doc => "doc"
  | .knowledge_base => "knowledge_base"
  | .both => "both"

/-- The frozen Link dataclass of app.py. -/
structure Link where
  text : String
  link : String
  link_type : LinkType
deriving DecidableEq, Repr

/-- The frozen PromptResult dataclass of app.py, with its default field
values. -/
structure PromptResult where
  limits : Int × Int
  num : Int := 0
  reason : Option String := none
  cancel : Bool := false
deriving DecidableEq, Repr

/-- The `more` branch of `_parse_prompt`: fail with reason "this is the
last page" when limits[1] + page_size > result_len, else shift the window
one page forward. -/
def advance (limits : Int × Int) (page_size result_len : Int) : PromptResult :=
  if limits.2 + page_size > result_len then
    { limits := limits, reason := some "this is the last page" }
  else
    { limits := (limits.1 + page_size, limits.2 + page_size) }

/-- The `back` branch of `_parse_prompt`: fail with reason "cannot go
back" when limits[0] == 0, else shift the window one page backward. -/
def retreat (limits : Int × Int) (page_size : Int) : PromptResult :=
  if limits.1 = 0 then
    { limits := limits, reason := some "cannot go back" }
  else
    { limits := (limits.1 - page_size, limits.2 - page_size) }

/-- The numeric tail of `_parse_prompt`: reject num when
num < limits[0] or num > limits[1] or num > result_len, else succeed with
num - 1 stored in the num field. -/
def select (limits : Int × Int) (result_len num : Int) : PromptResult :=
  if num < limits.1 ∨ num > limits.2 ∨ num > result_len then
    { limits := limits, reason := some "please specify the correct number" }
  else
    { limits := limits, num := num - 1 }

/-- `_parse_prompt` of app.py with the read input line made explicit:
lower-case the line, match the literals cancel, more, back in that order,
else attempt an integer parse, falling back to the unknown-command
message built from the lowered text. -/
def parsePrompt (limits : Int × Int) (page_size result_len : Int)
    (input : String) : PromptResult :=
  let prompt := pyLower input
  if prompt = "cancel" then { limits := limits, cancel := true }
  else if prompt = "more" then advance limits page_size result_len
  else if prompt = "back" then retreat limits page_size
  else
    match pyInt prompt with
    | none => { limits := limits, reason := some ("unkown command " ++ prompt) }
    | some num => select limits result_len num

/-- One candidate anchor element as the link extractor sees it: the span
text when the span element exists, the href when it is a string, and the
category marker with its already-parsed category when the marker div
exists. -/
structure RawLink where
  span : Option String
  href : Option String
  typeDiv : Option LinkType
deriving DecidableEq, Repr

/-- A raw record is malformed when its text span, href string, or
category marker element is missing. -/
def malformedRaw (r : RawLink) : Prop :=
  r.span = none ∨ r.href = none ∨ r.typeDiv = none

instance (r : RawLink) : Decidable (malformedRaw r) := by
  unfold malformedRaw; infer_instance

/-- The filter check of the extraction loop in `search`: a record is
skipped exactly when the filter is not `both` and the LinkType name
differs from the filter option name. -/
def keepLink (filter : LinkTypeOptions) (l : Link) : Bool :=
  if filter ≠ LinkTypeOptions.both ∧ l.link_type.pyName ≠ filter.pyName then
    false
  else
    true

/-- The filter stage in isolation: the effect of the skip check of
`search` on an already-extracted record sequence. -/
def filterLinks (filter : LinkTypeOptions) (records : List Link) : List Link :=
  records.filter (keepLink filter)

/-- The extraction loop of `search`: walk the candidate anchors in order;
a missing span, a non-string href, or a missing category marker aborts
with an error (the code prints ERROR and returns typer.Exit(1)); a
surviving record passes the filter check and is appended. -/
def extractLinks (filter : LinkTypeOptions) :
    List RawLink → Except Unit (List Link)
  | [] => .ok []
  | r :: rs =>
    match r.span with
    | none => .error ()
    | some text =>
      match r.href with
      | none => .error ()
      | some href =>
        match r.typeDiv with
        | none => .error ()
        | some lt =>
          match extractLinks filter rs with
          | .error e => .error e
          | .ok links =>
            if keepLink filter (Link.mk text href lt) then
              .ok (Link.mk text href lt :: links)
            else
              .ok links

/-- Python list subscription with a possibly negative index, as in
links[result.num]: a negative index counts from the end; none models the
IndexError raised outside the valid range. -/
def pyGet (links : List Link) (i : Int) : Option Link :=
  if 0 ≤ i then links.get? i.toNat
  else if 0 ≤ i + links.length then links.get? (i + links.length).toNat
  else none

/-- The while loop of `search` with the stream of input lines made
explicit: each iteration parses one line against the current limits; a
cancel ends the process with exit code 0; changed limits restart the
loop; a reason restarts it unchanged; otherwise the loop breaks and
links[result.num] is opened, exit code 0, while an index outside the
list crashes the process, exit code 1. none models a process still
blocked on input. -/
def runLoop (links : List Link) (page_size : Int) :
    Int × Int → List String → Option Nat
  | _, [] => none
  | limits, input :: rest =>
    let result := parsePrompt limits page_size (links.length : Int) input
    if result.cancel then some 0
    else if result.limits ≠ limits then runLoop links page_size result.limits rest
    else
      match result.reason with
      | some _ => runLoop links page_size limits rest
      | none =>
        match pyGet links result.num with
        | some _ => some 0
        | none => some 1

/-- The `search` command after the HTTP round trip: extract and filter
the records, aborting with exit code 1 before any page is displayed on a
malformed record, else run the interaction loop from the initial window
(0, page_size). The Bool records whether the pagination UI was reached. -/
def searchRun (filter : LinkTypeOptions) (raw : List RawLink)
    (page_size : Int) (inputs : List String) : Option (Nat × Bool) :=
  match extractLinks filter raw with
  | .error _ => some (1, false)
  | .ok links =>
    (runLoop links page_size (0, page_size) inputs).map (fun c => (c, true))

/-- The windows reachable in the interaction loop: the initial window
(0, page_size) of `search`, closed under one `_parse_prompt` step on any
input line. -/
inductive ReachableWindow (page_size result_len : Int) : Int × Int → Prop where
  | init : ReachableWindow page_size result_len (0, page_size)
  | step (w : Int × Int) (input : String) :
      ReachableWindow page_size result_len w →
      ReachableWindow page_size result_len
        (parsePrompt w page_size result_len input).limits

/-- The category a non-both filter mode selects. -/
def categoryOfMode : LinkTypeOptions → Option LinkType
  | .doc => some .doc
  | .knowledge_base => some .knowledge_base
  | .both => none

end SnowDocs

namespace SnowDocs

/-! Helper lemmas about the branches of `_parse_prompt`. -/

lemma parsePrompt_cancel (limits : Int × Int) (P N : Int) (input : String)
    (h : pyLower input = "cancel") :
    parsePrompt limits P N input = { limits := limits, cancel := true } := by
  simp [parsePrompt, h]

lemma parsePrompt_more (limits : Int × Int) (P N : Int) (input : String)
    (h : pyLower input = "more") :
    parsePrompt limits P N input = advance limits P N := by
  simp [parsePrompt, h]

lemma parsePrompt_back (limits : Int × Int) (P N : Int) (input : String)
    (h : pyLower input = "back") :
    parsePrompt limits P N input = retreat limits P := by
  simp [parsePrompt, h]

lemma parsePrompt_numeric (limits : Int × Int) (P N : Int) (input : String)
    (n : Int) (h1 : pyLower input ≠ "cancel") (h2 : pyLower input ≠ "more")
    (h3 : pyLower input ≠ "back") (h4 : pyInt (pyLower input) = some n) :
    parsePrompt limits P N input = select limits N n := by
  simp only [parsePrompt, h4]
  rw [if_neg h1, if_neg h2, if_neg h3]

lemma parsePrompt_unknown (limits : Int × Int) (P N : Int) (input : String)
    (h1 : pyLower input ≠ "cancel") (h2 : pyLower input ≠ "more")
    (h3 : pyLower input ≠ "back") (h4 : pyInt (pyLower input) = none) :
    parsePrompt limits P N input =
      { limits := limits, reason := some ("unkown command " ++ pyLower input) } := by
  simp only [parsePrompt, h4]
  rw [if_neg h1, if_neg h2, if_neg h3]

end SnowDocs

namespace SnowDocs

lemma parsePrompt_congr (limits : Int × Int) (P N : Int) (s t : String)
    (h : pyLower s = pyLower t) :
    parsePrompt limits P N s = parsePrompt limits P N t := by
  simp only [parsePrompt, h]

lemma parsePrompt_limits_cases (limits : Int × Int) (P N : Int)
    (input : String) :
    (parsePrompt limits P N input).limits = limits ∨
    (parsePrompt limits P N input).limits = (limits.1 + P, limits.2 + P) ∨
    (limits.1 ≠ 0 ∧
      (parsePrompt limits P N input).limits = (limits.1 - P, limits.2 - P)) := by
  by_cases hc : pyLower input = "cancel"
  · rw [parsePrompt_cancel _ _ _ _ hc]; left; rfl
  by_cases hm : pyLower input = "more"
  · rw [parsePrompt_more _ _ _ _ hm]; unfold advance; split_ifs
    · left; rfl
    · right; left; rfl
  by_cases hb : pyLower input = "back"
  · rw [parsePrompt_back _ _ _ _ hb]; unfold retreat; split_ifs with h0
    · left; rfl
    · right; right; exact ⟨h0, rfl⟩
  cases hI : pyInt (pyLower input) with
  | none => rw [parsePrompt_unknown _ _ _ _ hc hm hb hI]; left; rfl
  | some n =>
    rw [parsePrompt_numeric _ _ _ _ n hc hm hb hI]
    unfold select
    split_ifs <;> (left; rfl)

lemma extractLinks_error_iff (filter : LinkTypeOptions) (raw : List RawLink) :
    extractLinks filter raw = .error () ↔ ∃ r ∈ raw, malformedRaw r := by
  induction raw with
  | nil => simp [extractLinks]
  | cons r rs ih =>
    rcases r with ⟨sp, hr, td⟩
    cases sp with
    | none => simp [extractLinks, malformedRaw]
    | some text =>
      cases hr with
      | none => simp [extractLinks, malformedRaw]
      | some href =>
        cases td with
        | none => simp [extractLinks, malformedRaw]
        | some lt =>
          rcases hrec : extractLinks filter rs with e | links
          · cases e
            have hex := ih.mp hrec
            simp only [malformedRaw] at hex
            simp only [extractLinks, hrec]
            simp [malformedRaw, hex]
          · have hne : ¬ ∃ x ∈ rs,
                x.span = none ∨ x.href = none ∨ x.typeDiv = none := by
              intro hx
              have hx2 : ∃ r ∈ rs, malformedRaw r := by
                simpa [malformedRaw] using hx
              rw [← ih] at hx2
              simp [hx2] at hrec
            simp only [extractLinks, hrec]
            split <;> simp [malformedRaw, hne]

lemma parsePrompt_zero (e N P : Int) (he : 0 ≤ e) (hN : 0 ≤ N) :
    parsePrompt (0, e) P N "0" = { limits := (0, e), num := -1 } := by
  rw [parsePrompt_numeric (0, e) P N "0" 0 (by decide) (by decide) (by decide)
    (by decide)]
  unfold select
  rw [if_neg (by simp; omega)]
  norm_num

end SnowDocs

namespace SnowDocs

/-- C1 counterexample: with N = 12, P = 5 and window (5, 10), the claim
predicts that advance succeeds because window.end = 10 is below N = 12,
yet the code refuses with the last-page reason, since its check is
window.end + P > N. -/
theorem c1_counterexample :
    (advance (5, 10) 5 12).reason = some "this is the last page" ∧
    ¬((10 : Int) ≥ 12) := by decide

/-- Claim C1 (amended): advance fails, with the window unchanged, iff
window.end + P > N, and otherwise returns the window shifted forward by
P; retreat fails, with the window unchanged, iff window.start = 0, and
otherwise returns the window shifted backward by P. -/
theorem c1_amended_pager_boundaries (limits : Int × Int) (P N : Int) :
    ((advance limits P N).reason ≠ none ↔ limits.2 + P > N) ∧
    ((advance limits P N).reason ≠ none → (advance limits P N).limits = limits) ∧
    (limits.2 + P ≤ N →
      advance limits P N =
        { limits := (limits.1 + P, limits.2 + P), num := 0, reason := none,
          cancel := false }) ∧
    ((retreat limits P).reason ≠ none ↔ limits.1 = 0) ∧
    (limits.1 = 0 → (retreat limits P).limits = limits) ∧
    (limits.1 ≠ 0 →
      retreat limits P =
        { limits := (limits.1 - P, limits.2 - P), num := 0, reason := none,
          cancel := false }) := by
  unfold advance retreat
  split_ifs with h1 h2 <;> simp_all

/-- C1 amended claim instantiated at N = 12, P = 5: the window (5, 10)
is already on the last page, while the window (0, 5) advances to (5, 10)
and the window (5, 10) retreats to (0, 5). -/
theorem c1_witness :
    (advance (5, 10) 5 12).limits = ((5 : Int), (10 : Int)) ∧
    advance (0, 5) 5 12 =
      { limits := ((5 : Int), (10 : Int)), num := 0, reason := none,
        cancel := false } ∧
    retreat (5, 10) 5 =
      { limits := ((0 : Int), (5 : Int)), num := 0, reason := none,
        cancel := false } := by
  refine ⟨?_, ?_, ?_⟩
  · exact (c1_amended_pager_boundaries (5, 10) 5 12).2.1 (by decide)
  · exact (c1_amended_pager_boundaries (0, 5) 5 12).2.2.1 (by decide)
  · exact (c1_amended_pager_boundaries (5, 10) 5 12).2.2.2.2.2 (by decide)

/-- C2 counterexample: with window (0, 5) and N = 5, the user-typed
number 0 is accepted by the code, yielding index -1, although the claim
requires window.start < n and 0 < 0 fails. -/
theorem c2_counterexample :
    (select (0, 5) 5 0).reason = none ∧
    (select (0, 5) 5 0).num = -1 ∧
    ¬((0 : Int) < 0) := by decide

/-- Claim C2 (amended): select succeeds, returning n - 1, iff
window.start ≤ n ≤ window.end and n ≤ N; on any failure the reason is
the message "please specify the correct number", and the window is
unchanged in all cases. -/
theorem c2_amended_select_spec (limits : Int × Int) (N n : Int) :
    ((select limits N n).reason = none ↔
      limits.1 ≤ n ∧ n ≤ limits.2 ∧ n ≤ N) ∧
    ((select limits N n).reason = none → (select limits N n).num = n - 1) ∧
    ((select limits N n).reason ≠ none →
      (select limits N n).reason = some "please specify the correct number") ∧
    (select limits N n).limits = limits := by
  unfold select
  split_ifs with h <;> simp_all
  omega

/-- C2 amended claim instantiated at window (5, 10), N = 12, n = 7: the
visible number 7 is accepted and returns index 6. -/
theorem c2_witness :
    ((5 : Int) ≤ 7 ∧ (7 : Int) ≤ 10 ∧ (7 : Int) ≤ 12) ∧
    (select (5, 10) 12 7).num = 7 - 1 := by
  refine ⟨by decide, ?_⟩
  exact (c2_amended_select_spec (5, 10) 12 7).2.1
    (((c2_amended_select_spec (5, 10) 12 7).1).mpr (by decide))

/-- Claim C3: with N = 12 and P = 5, from the initial window (0, 5) the
command more moves to (5, 10); a second more fails with the last-page
message and leaves (5, 10); back then returns to (0, 5). -/
theorem c3_end_to_end :
    (parsePrompt (0, 5) 5 12 "more").limits = (5, 10) ∧
    (parsePrompt (0, 5) 5 12 "more").reason = none ∧
    parsePrompt (5, 10) 5 12 "more" =
      { limits := ((5 : Int), (10 : Int)), num := 0,
        reason := some "this is the last page", cancel := false } ∧
    (parsePrompt (5, 10) 5 12 "back").limits = (0, 5) ∧
    (parsePrompt (5, 10) 5 12 "back").reason = none := by decide

/-- C6 counterexample: the input XYZ is lower-cased before the
unknown-command message is built, so the message carries xyz and not the
original text XYZ as the claim states. -/
theorem c6_counterexample :
    (parsePrompt (0, 5) 5 10 "XYZ").reason = some "unkown command xyz" ∧
    (parsePrompt (0, 5) 5 10 "XYZ").reason ≠ some "unkown command XYZ" := by
  decide

/-- Claim C6 (amended): for every input line that is not a keyword
command and fails integer parsing, the result carries the lower-cased
input in the message "unkown command " followed by that lowered text,
and the window is unchanged. -/
theorem c6_amended_unknown_message (limits : Int × Int) (P N : Int)
    (input : String) (h1 : pyLower input ≠ "cancel")
    (h2 : pyLower input ≠ "more") (h3 : pyLower input ≠ "back")
    (h4 : pyInt (pyLower input) = none) :
    parsePrompt limits P N input =
      { limits := limits, num := 0,
        reason := some ("unkown command " ++ pyLower input),
        cancel := false } := by
  exact parsePrompt_unknown limits P N input h1 h2 h3 h4

/-- C6 amended claim instantiated at the input XYZ. -/
theorem c6_witness :
    parsePrompt (0, 5) 5 10 "XYZ" =
      { limits := ((0 : Int), (5 : Int)), num := 0,
        reason := some ("unkown command " ++ pyLower "XYZ"),
        cancel := false } :=
  c6_amended_unknown_message (0, 5) 5 10 "XYZ" (by decide) (by decide)
    (by decide) (by decide)

/-- Claim C8: when advance succeeds and retreat applied to its result
also succeeds, the retreat returns the original window. -/
theorem c8_advance_retreat_inverse (limits : Int × Int) (P N : Int)
    (h1 : (advance limits P N).reason = none)
    (h2 : (retreat (advance limits P N).limits P).reason = none) :
    (retreat (advance limits P N).limits P).limits = limits := by
  have hA : advance limits P N =
      { limits := (limits.1 + P, limits.2 + P), num := 0, reason := none,
        cancel := false } := by
    unfold advance at h1 ⊢
    split_ifs at h1 ⊢ with h
    rfl
  rw [hA] at h2 ⊢
  unfold retreat at h2 ⊢
  split_ifs at h2 ⊢ with h3
  simp [Prod.ext_iff]

/-- C8 instantiated at window (0, 5), P = 5, N = 12: more then back is
the identity. -/
theorem c8_witness :
    (retreat (advance (0, 5) 5 12).limits 5).limits = ((0 : Int), (5 : Int)) :=
  c8_advance_retreat_inverse (0, 5) 5 12 (by decide) (by decide)

end SnowDocs

namespace SnowDocs

/-- Claim C4: the window starts at (0, pageSize), and every window
reachable from it through `_parse_prompt` steps with page size P ≥ 1 has
a start that is a non-negative multiple of P. -/
theorem c4_start_invariant (P N : Int) (hP : 1 ≤ P) (w : Int × Int)
    (hw : ReachableWindow P N w) : 0 ≤ w.1 ∧ P ∣ w.1 := by
  induction hw with
  | init => exact ⟨le_refl 0, dvd_zero P⟩
  | step w input hw ih =>
    rcases parsePrompt_limits_cases w P N input with h | h | ⟨hne, h⟩
    · rw [h]; exact ih
    · rw [h]
      obtain ⟨hpos, hdvd⟩ := ih
      exact ⟨by omega, by simpa using hdvd.add (dvd_refl P)⟩
    · rw [h]
      obtain ⟨hpos, hdvd⟩ := ih
      refine ⟨?_, by simpa using hdvd.sub (dvd_refl P)⟩
      obtain ⟨k, hk⟩ := hdvd
      have hk1 : 1 ≤ k := by
        rcases lt_or_le k 1 with hlt | hle
        · exfalso
          have hk0 : k ≤ 0 := by omega
          have : P * k ≤ 0 := mul_nonpos_of_nonneg_of_nonpos (by omega) hk0
          have : P * k = 0 := le_antisymm this (hk ▸ hpos)
          exact hne (by rw [hk, this])
        · exact hle
      have : P ≤ P * k := le_mul_of_one_le_right (by omega) hk1
      omega

/-- C4 instantiated at the initial window with P = 5, N = 12. -/
theorem c4_witness : 0 ≤ ((0 : Int), (5 : Int)).1 ∧ (5 : Int) ∣ ((0 : Int), (5 : Int)).1 :=
  c4_start_invariant 5 12 (by norm_num) (0, 5) ReachableWindow.init

/-- Claim C5: the prompt interpreter factors through lower-casing, so
matching is case-insensitive; the lowered literals cancel, more, back
select the corresponding branches; any other input goes to the integer
parse, ending in the select branch on success and in the
unknown-command result on failure. -/
theorem c5_parse_structure (limits : Int × Int) (P N : Int) :
    (∀ s t : String, pyLower s = pyLower t →
      parsePrompt limits P N s = parsePrompt limits P N t) ∧
    (∀ s, pyLower s = "cancel" →
      parsePrompt limits P N s =
        { limits := limits, num := 0, reason := none, cancel := true }) ∧
    (∀ s, pyLower s = "more" →
      parsePrompt limits P N s = advance limits P N) ∧
    (∀ s, pyLower s = "back" →
      parsePrompt limits P N s = retreat limits P) ∧
    (∀ s n, pyLower s ≠ "cancel" → pyLower s ≠ "more" → pyLower s ≠ "back" →
      pyInt (pyLower s) = some n →
      parsePrompt limits P N s = select limits N n) ∧
    (∀ s, pyLower s ≠ "cancel" → pyLower s ≠ "more" → pyLower s ≠ "back" →
      pyInt (pyLower s) = none →
      parsePrompt limits P N s =
        { limits := limits, num := 0,
          reason := some ("unkown command " ++ pyLower s), cancel := false }) :=
  ⟨fun s t h => parsePrompt_congr limits P N s t h,
   fun s h => parsePrompt_cancel limits P N s h,
   fun s h => parsePrompt_more limits P N s h,
   fun s h => parsePrompt_back limits P N s h,
   fun s n h1 h2 h3 h4 => parsePrompt_numeric limits P N s n h1 h2 h3 h4,
   fun s h1 h2 h3 h4 => parsePrompt_unknown limits P N s h1 h2 h3 h4⟩

/-- C5 instantiated: MORE behaves as more, MoRe equals more, and the
input 7 reaches the select branch. -/
theorem c5_witness :
    parsePrompt (0, 5) 5 12 "MORE" = advance (0, 5) 5 12 ∧
    parsePrompt (0, 5) 5 12 "MoRe" = parsePrompt (0, 5) 5 12 "more" ∧
    parsePrompt (0, 5) 5 12 "7" = select (0, 5) 12 7 := by
  refine ⟨?_, ?_, ?_⟩
  · exact (c5_parse_structure (0, 5) 5 12).2.2.1 "MORE" (by decide)
  · exact (c5_parse_structure (0, 5) 5 12).1 "MoRe" "more" (by decide)
  · exact (c5_parse_structure (0, 5) 5 12).2.2.2.2.1 "7" 7 (by decide)
      (by decide) (by decide) (by decide)

/-- Claim C7: with mode both the filter stage returns its input
unchanged; with any other mode it returns the order-preserving
subsequence of exactly the records whose category is the one the mode
selects. -/
theorem c7_filter_spec (mode : LinkTypeOptions) (records : List Link) :
    (mode = LinkTypeOptions.both → filterLinks mode records = records) ∧
    (mode ≠ LinkTypeOptions.both →
      (filterLinks mode records).Sublist records ∧
      ∃ c, categoryOfMode mode = some c ∧
        filterLinks mode records =
          records.filter (fun l => decide (l.link_type = c))) := by
  constructor
  · intro h
    subst h
    unfold filterLinks keepLink
    simp
  · intro h
    refine ⟨List.filter_sublist _, ?_⟩
    cases mode with
    | both => exact absurd rfl h
    | doc =>
      refine ⟨.doc, rfl, List.filter_congr ?_⟩
      intro l _
      cases hl : l.link_type <;>
        simp [keepLink, LinkType.pyName, LinkTypeOptions.pyName, hl]
    | knowledge_base =>
      refine ⟨.knowledge_base, rfl, List.filter_congr ?_⟩
      intro l _
      cases hl : l.link_type <;>
        simp [keepLink, LinkType.pyName, LinkTypeOptions.pyName, hl]

/-- C7 instantiated on a two-record list: mode both keeps it whole, and
mode doc keeps exactly the Documentation record. -/
theorem c7_witness :
    filterLinks .both [Link.mk "a" "u" .doc, Link.mk "b" "v" .knowledge_base] =
      [Link.mk "a" "u" .doc, Link.mk "b" "v" .knowledge_base] ∧
    (filterLinks .doc [Link.mk "a" "u" .doc, Link.mk "b" "v" .knowledge_base]).Sublist
      [Link.mk "a" "u" .doc, Link.mk "b" "v" .knowledge_base] := by
  refine ⟨?_, ?_⟩
  · exact (c7_filter_spec .both
      [Link.mk "a" "u" .doc, Link.mk "b" "v" .knowledge_base]).1 rfl
  · exact ((c7_filter_spec .doc
      [Link.mk "a" "u" .doc, Link.mk "b" "v" .knowledge_base]).2 (by decide)).1

end SnowDocs

namespace SnowDocs

/-- Claim C9: a malformed extracted record makes the search command end
with exit code 1 before the pagination UI is ever reached, and
conversely only a malformed record produces that outcome; inside the
loop, an explicit cancel ends with exit code 0, and a selection that
opens a link ends with exit code 0. -/
theorem c9_exit_codes (filter : LinkTypeOptions) (raw : List RawLink)
    (P : Int) (inputs : List String) :
    (searchRun filter raw P inputs = some (1, false) ↔
      ∃ r ∈ raw, malformedRaw r) ∧
    (∀ (links : List Link) (limits : Int × Int) (input : String)
        (rest : List String),
      pyLower input = "cancel" →
      runLoop links P limits (input :: rest) = some 0) ∧
    (∀ (links : List Link) (limits : Int × Int) (input : String)
        (rest : List String) (l : Link),
      (parsePrompt limits P (links.length : Int) input).cancel = false →
      (parsePrompt limits P (links.length : Int) input).limits = limits →
      (parsePrompt limits P (links.length : Int) input).reason = none →
      pyGet links (parsePrompt limits P (links.length : Int) input).num = some l →
      runLoop links P limits (input :: rest) = some 0) := by
  refine ⟨?_, ?_, ?_⟩
  · rcases hex : extractLinks filter raw with e | links
    · cases e
      have hx := (extractLinks_error_iff filter raw).mp hex
      simp only [searchRun, hex]
      simp [hx]
    · simp only [searchRun, hex]
      have hmap : ∀ o : Option Nat, o.map (fun c => (c, true)) ≠ some (1, false) := by
        intro o; cases o <;> simp
      refine iff_of_false (hmap _) ?_
      intro hex2
      rw [← extractLinks_error_iff] at hex2
      rw [hex] at hex2
      simp at hex2
  · intro links limits input rest h
    have hc := parsePrompt_cancel limits P (links.length : Int) input h
    simp [runLoop, hc]
  · intro links limits input rest l h1 h2 h3 h4
    simp [runLoop, h1, h2, h3, h4]

/-- C9 instantiated: one record with every part missing aborts with exit
code 1 and no pagination; cancel exits 0; selecting the only link of a
one-element list exits 0. -/
theorem c9_witness :
    searchRun .both [RawLink.mk none none none] 5 [] = some (1, false) ∧
    runLoop [] 5 (0, 5) ["cancel"] = some 0 ∧
    runLoop [Link.mk "a" "u" .doc] 5 (0, 5) ["1"] = some 0 := by
  refine ⟨?_, ?_, ?_⟩
  · exact (c9_exit_codes .both [RawLink.mk none none none] 5 []).1.mpr
      ⟨RawLink.mk none none none, by simp, Or.inl rfl⟩
  · exact (c9_exit_codes .both [] 5 []).2.1 [] (0, 5) "cancel" [] (by decide)
  · exact (c9_exit_codes .both [] 5 []).2.2 [Link.mk "a" "u" .doc] (0, 5) "1"
      [] (Link.mk "a" "u" .doc) (by decide) (by decide) (by decide) (by decide)

/-- Claim C10: on any window starting at 0 (the initial page included)
and any result count N ≥ 0, the input 0 is accepted as a successful
selection with index -1 rather than rejected, -1 lies outside the range
of valid indices, and the loop then opens the element at Python index
-1, the last element, crashing on an empty list. -/
theorem c10_zero_selection (e N P : Int) (he : 0 ≤ e) (hN : 0 ≤ N) :
    parsePrompt (0, e) P N "0" =
      { limits := (0, e), num := -1, reason := none, cancel := false } ∧
    ¬(0 ≤ (-1 : Int)) ∧
    (∀ (links : List Link) (rest : List String), 0 ≤ P →
      runLoop links P (0, P) ("0" :: rest) =
        match pyGet links (-1) with
        | some _ => some 0
        | none => some 1) := by
  refine ⟨parsePrompt_zero e N P he hN, by norm_num, ?_⟩
  intro links rest hP
  have hp := parsePrompt_zero P (links.length : Int) P hP (Int.natCast_nonneg _)
  cases hg : pyGet links (-1) <;> simp [runLoop, hp, hg]

/-- C10 instantiated at the empty result set with the initial window
(0, 5): the selection 0 succeeds with index -1 and the loop then
crashes with exit code 1 on the out-of-range access. -/
theorem c10_witness :
    parsePrompt (0, 5) 5 0 "0" =
      { limits := ((0 : Int), (5 : Int)), num := -1, reason := none,
        cancel := false } ∧
    runLoop [] 5 (0, 5) ["0"] = some 1 := by
  obtain ⟨h1, _h2, h3⟩ := c10_zero_selection 5 0 5 (by norm_num) (by norm_num)
  refine ⟨h1, ?_⟩
  rw [h3 [] [] (by norm_num)]
  decide

end SnowDocs
